/-
Verification of the NahelTeam `nahl-backend` content/contact/upload backend
(`nahl-backend/app.py`) against its natural-language specification.

The Python handlers are shallowly embedded as pure Lean functions:
  * Parsed JSON documents are values of the inductive type `Json`
    (JSON numbers are modelled as integers; none of the verified
    properties depend on non-integral numbers).
  * A file on disk either parses to a `Json` value or is
    corrupt/unreadable (`FileContent.corrupt`): `json.load` on such a
    file raises, which the embedding renders as `Except.error ()`.
  * Directories are association lists keyed by filename stem; the
    content tree maps a language to its page directory and its
    `projects` subdirectory.
  * A Python exception that the handler does not catch is an
    `Except.error ()` result; a normal HTTP response is `.ok` carrying
    the JSON body and the status code.
  * External collaborators (the clock, `werkzeug.secure_filename`,
    Pillow's image decoding, the SMTP session) are parameters of the
    embedding, supplied through small environment structures.
-/
import Mathlib

namespace NahlBackend

/-- Parsed JSON values. Numbers are modelled as integers. -/
inductive Json where
  | null : Json
  | bool (b : Bool) : Json
  | num (n : Int) : Json
  | str (s : String) : Json
  | arr (elems : List Json) : Json
  | obj (fields : List (String × Json)) : Json

/-- Python truthiness of a parsed JSON value (`bool(x)`):
`None`, `False`, `0`, `""`, `[]` and `{}` are falsy. -/
def Json.truthy : Json → Bool
  | .null => false
  | .bool b => b
  | .num n => n != 0
  | .str s => s != ""
  | .arr elems => !elems.isEmpty
  | .obj fields => !fields.isEmpty

/-- Python truthiness of an optional value (`None` is falsy). -/
def pyTruthy : Option Json → Bool
  | none => false
  | some j => j.truthy

/-- Association-list lookup used for directories and stores
(`path.exists()` / reading the file at a key). -/
def getFile {α : Type} (store : List (String × α)) (key : String) : Option α :=
  match store with
  | [] => none
  | (k, v) :: rest => if k = key then some v else getFile rest key

/-- Association-list update used for file writes: overwrites the entry
at `key` if present, otherwise appends it. -/
def setFile {α : Type} (store : List (String × α)) (key : String) (v : α) :
    List (String × α) :=
  match store with
  | [] => [(key, v)]
  | (k, w) :: rest => if k = key then (key, v) :: rest else (k, w) :: setFile rest key v

/-- `d.get(key)` / `d.get(key, default)` on a parsed JSON value.
On a `dict` it returns the value or the default; on any non-`dict`
Python raises `AttributeError`, rendered as `Except.error ()`. -/
def Json.pyGetD (j : Json) (key : String) (default : Json) : Except Unit Json :=
  match j with
  | .obj fields => .ok ((getFile fields key).getD default)
  | _ => .error ()

/-- `x or ""`: a falsy value is replaced by the empty string. -/
def pyOrEmpty (j : Json) : Json := if j.truthy then j else .str ""

/-- ASCII whitespace as stripped by `str.strip()` (non-ASCII unicode
whitespace is not modelled). -/
def isPySpace (c : Char) : Bool :=
  c = ' ' || c = '\t' || c = '\n' || c = '\x0d' || c = '\x0b' || c = '\x0c'

/-- `str.strip()` on the character list: drop whitespace from both ends. -/
def pyStripChars (cs : List Char) : List Char :=
  ((cs.dropWhile isPySpace).reverse.dropWhile isPySpace).reverse

/-- `str.strip()`. -/
def pyStripStr (s : String) : String := ⟨pyStripChars s.data⟩

/-- `x.strip()`: trims surrounding whitespace of a string; on a
non-string Python raises `AttributeError`. -/
def pyStrip : Json → Except Unit String
  | .str s => .ok (pyStripStr s)
  | _ => .error ()

/-- `request.get_json() or {}`: a missing/unparsed body (`None`) and a
falsy body are both replaced by the empty object. -/
def pyOrDict (body : Option Json) : Json :=
  match body with
  | none => Json.obj []
  | some j => if j.truthy then j else Json.obj []

/-- `repr()` of a parsed JSON value, as far as the embedding needs it
(string escaping inside `repr` is not modelled). -/
def Json.pyRepr : Json → String
  | .null => "None"
  | .bool true => "True"
  | .bool false => "False"
  | .num n => toString n
  | .str s => "'" ++ s ++ "'"
  | .arr elems => "[" ++ String.intercalate ", " (elems.attach.map fun e => e.1.pyRepr) ++ "]"
  | .obj fields =>
      "\x7b" ++
        String.intercalate ", "
          (fields.attach.map fun kv => "'" ++ kv.1.1 ++ "': " ++ kv.1.2.pyRepr) ++
      "\x7d"
termination_by j => sizeOf j
decreasing_by
  · have h := List.sizeOf_lt_of_mem e.2
    simp_wf
    omega
  · have h := List.sizeOf_lt_of_mem kv.2
    rcases kv with ⟨⟨s, j⟩, hmem⟩
    simp_wf
    simp only [Prod.mk.sizeOf_spec] at h
    omega

/-- `str()` / f-string interpolation of a parsed JSON value. -/
def Json.pyFStr : Json → String
  | .str s => s
  | j => j.pyRepr

/-- The JSON error body `{"error": msg}` produced by the handlers. -/
def errObj (msg : String) : Json := .obj [("error", .str msg)]

/-- A stored file: either it parses as JSON or it is
corrupt/unreadable (parsing raises). -/
inductive FileContent where
  | json (j : Json) : FileContent
  | corrupt : FileContent

/-- A directory of `.json` files, keyed by filename stem (`p.stem`). -/
abbrev Dir := List (String × FileContent)

/-- The content tree rooted at `CONTENT_DIR`: per language, the page
directory `content/{lang}` and the project directory
`content/{lang}/projects`. A language absent from the list is a
directory that does not exist. -/
structure ContentFS where
  pages : List (String × Dir)
  projects : List (String × Dir)

/-- `load_json_file(path)` (app.py:36-40): `None` if the path does not
exist, otherwise `json.load` — which raises (uncaught) on a
corrupt/unreadable file. The argument is the file found at the path,
if any. -/
def load_json_file (file : Option FileContent) : Except Unit (Option Json) :=
  match file with
  | none => .ok none
  | some .corrupt => .error ()
  | some (.json j) => .ok (some j)

/-- The file at `CONTENT_DIR / lang / f"{slug}.json"`, if any. -/
def pageFile (fs : ContentFS) (lang slug : String) : Option FileContent :=
  (getFile fs.pages lang).bind fun d => getFile d slug

/-- The file at `CONTENT_DIR / lang / "projects" / f"{slug}.json"`, if any. -/
def projectFile (fs : ContentFS) (lang slug : String) : Option FileContent :=
  (getFile fs.projects lang).bind fun d => getFile d slug

/-- `GET /api/pages/<slug>` (app.py:65-72). `lang?` is the `lang` query
parameter (default `"ar"`). Returns the body and status code, or an
uncaught exception. -/
def get_page (fs : ContentFS) (lang? : Option String) (slug : String) :
    Except Unit (Json × Nat) := do
  let lang := lang?.getD "ar"
  let data ← load_json_file (pageFile fs lang slug)
  match data with
  | some j => if j.truthy then return (j, 200) else return (errObj "not found", 404)
  | none => return (errObj "not found", 404)

/-- `GET /api/projects/<slug>` (app.py:103-110). -/
def get_project (fs : ContentFS) (lang? : Option String) (slug : String) :
    Except Unit (Json × Nat) := do
  let lang := lang?.getD "ar"
  let data ← load_json_file (projectFile fs lang slug)
  match data with
  | some j => if j.truthy then return (j, 200) else return (errObj "not found", 404)
  | none => return (errObj "not found", 404)

/-- The loop body of `list_pages` (app.py:80-83): for each `.json` file
in enumeration order, `load_json_file` (raises on a corrupt file), skip
falsy results, and build `{"slug": p.stem, "title": d.get("title")}`
(`d.get` raises on a truthy non-`dict`). -/
def pageSummaries : Dir → Except Unit (List Json)
  | [] => .ok []
  | (stem, file) :: rest => do
      let d ← load_json_file (some file)
      match d with
      | some j =>
          if j.truthy then do
            let title ← j.pyGetD "title" .null
            let tail ← pageSummaries rest
            return (.obj [("slug", .str stem), ("title", title)]) :: tail
          else pageSummaries rest
      | none => pageSummaries rest

/-- `GET /api/pages` (app.py:74-84): `[]` if the language directory
does not exist, otherwise one summary per parsed truthy file. -/
def list_pages (fs : ContentFS) (lang? : Option String) : Except Unit (Json × Nat) := do
  let lang := lang?.getD "ar"
  match getFile fs.pages lang with
  | none => return (.arr [], 200)
  | some d => do
      let summaries ← pageSummaries d
      return (.arr summaries, 200)

/-- The loop body of `list_projects` (app.py:92-100): like pages but
the summary carries `title`, `summary` and `images` (default `[]`). -/
def projectSummaries : Dir → Except Unit (List Json)
  | [] => .ok []
  | (stem, file) :: rest => do
      let d ← load_json_file (some file)
      match d with
      | some j =>
          if j.truthy then do
            let title ← j.pyGetD "title" .null
            let summary ← j.pyGetD "summary" .null
            let images ← j.pyGetD "images" (.arr [])
            let tail ← projectSummaries rest
            return (.obj [("slug", .str stem), ("title", title),
                          ("summary", summary), ("images", images)]) :: tail
          else projectSummaries rest
      | none => projectSummaries rest

/-- `GET /api/projects` (app.py:86-101). -/
def list_projects (fs : ContentFS) (lang? : Option String) : Except Unit (Json × Nat) := do
  let lang := lang?.getD "ar"
  match getFile fs.projects lang with
  | none => return (.arr [], 200)
  | some d => do
      let summaries ← projectSummaries d
      return (.arr summaries, 200)

/-- Default of `ADMIN_TOKEN` (app.py:29). -/
def default_admin_token : String := "changeme"

/-- `save_json_file` for a page path (app.py:42-45 as used by
app.py:206): creates the language directory if needed and writes the
document at the slug's stem. -/
def writePage (fs : ContentFS) (lang stem : String) (data : Json) : ContentFS :=
  { fs with
    pages := setFile fs.pages lang (setFile ((getFile fs.pages lang).getD []) stem (.json data)) }

/-- `POST /api/pages` (app.py:193-207). `token` is the `X-ADMIN-TOKEN`
header (absent = `None`, which never equals the configured token).
`body` is the parsed request body. `lang` must come out a string: on a
non-string, `CONTENT_DIR / lang` raises `TypeError`. -/
def create_page (ADMIN_TOKEN : String) (fs : ContentFS) (token : Option String)
    (body : Option Json) : Except Unit (ContentFS × Json × Nat) := do
  if token ≠ some ADMIN_TOKEN then
    return (fs, errObj "unauthorized", 401)
  let data := pyOrDict body
  let lang ← data.pyGetD "lang" (.str "ar")
  let slug ← data.pyGetD "slug" .null
  if !slug.truthy then
    return (fs, errObj "slug required", 400)
  let langS ← (match lang with
    | .str s => Except.ok s
    | _ => Except.error () : Except Unit String)
  let stem := slug.pyFStr
  if (pageFile fs langS stem).isSome then
    return (fs, errObj "already exists", 400)
  return (writePage fs langS stem data, .obj [("status", .str "created"), ("slug", slug)], 201)

/-! ## Upload handler -/

/-- Default of `ALLOWED_EXT` (app.py:30): the result of
`"png,jpg,jpeg,webp".split(",")`. -/
def default_allowed_ext : List String := ["png", "jpg", "jpeg", "webp"]

/-- Default of `MAX_UPLOAD_SIZE` (app.py:31): `5 * 1024 * 1024` bytes. -/
def default_max_upload_size : Nat := 5 * 1024 * 1024

/-- Python `in` on the configured extension set (modelled as a list). -/
def strMem (x : String) : List String → Bool
  | [] => false
  | a :: rest => if a = x then true else strMem x rest

/-- `str.lower()` (ASCII case mapping, as Lean's `Char.toLower`). -/
def pyLower (s : String) : String := ⟨s.data.map Char.toLower⟩

/-- The characters after the last `.` of the list, the whole list when
no dot occurs: `rsplit(".", 1)[-1]` on the character level. -/
def afterLastDot : List Char → List Char
  | [] => []
  | c :: rest =>
      if rest.contains '.' then afterLastDot rest
      else if c = '.' then rest
      else c :: afterLastDot rest

/-- `filename.rsplit(".", 1)[-1]` when the name contains a dot, else
`""` (app.py:48; the `.lower()` is applied at the use site below —
lowering the empty string is the identity). -/
def file_ext (filename : String) : String :=
  if filename.data.contains '.' then ⟨afterLastDot filename.data⟩ else ""

/-- `is_allowed_filename` (app.py:47-49). -/
def is_allowed_filename (ALLOWED_EXT : List String) (filename : String) : Bool :=
  strMem (pyLower (file_ext filename)) ALLOWED_EXT

/-- The uploads directory: stored name to file bytes. -/
abbrev Uploads := List (String × List Nat)

/-- The `file` part of the multipart request: original filename and
content bytes (`f.seek`/`f.tell` makes the size the byte length). -/
structure UploadFile where
  filename : String
  content : List Nat

/-- Configuration and external collaborators of the upload handler. -/
structure UploadEnv where
  ALLOWED_EXT : List String
  MAX_UPLOAD_SIZE : Nat
  /-- whether `from PIL import Image` succeeded (app.py:12-16). -/
  PIL_AVAILABLE : Bool
  /-- `werkzeug.utils.secure_filename`, an external collaborator. -/
  secure_filename : String → String
  /-- `datetime.utcnow().strftime("%Y%m%d%H%M%S")` at the time of the request. -/
  timestamp : String
  /-- whether Pillow succeeds in decoding, resizing and saving this upload. -/
  pil_ok : Bool
  /-- the bytes Pillow writes for the thumbnail of the given original. -/
  thumb_bytes : List Nat → List Nat

/-- `make_thumbnail` (app.py:51-61): `False` when Pillow is absent;
otherwise decode, bound the dimensions and save the thumbnail — any
exception is swallowed and reported as `False` with no thumbnail
written. -/
def make_thumbnail (env : UploadEnv) (store : Uploads) (src thumb : String) :
    Uploads × Bool :=
  if !env.PIL_AVAILABLE then (store, false)
  else if env.pil_ok then
    (setFile store thumb (env.thumb_bytes ((getFile store src).getD [])), true)
  else (store, false)

/-- `POST /api/uploads` (app.py:156-191). `file?` is the `file` part of
the multipart request (`none` when absent). Returns the uploads
directory after the request, the JSON body, and the status code. -/
def uploads (env : UploadEnv) (store : Uploads) (file? : Option UploadFile) :
    Uploads × Json × Nat :=
  match file? with
  | none => (store, errObj "file required", 400)
  | some f =>
      if f.filename = "" then (store, errObj "filename empty", 400)
      else
        let filename := env.secure_filename f.filename
        if !is_allowed_filename env.ALLOWED_EXT filename then
          (store, errObj "file type not allowed", 400)
        else
          let size := f.content.length
          if size > env.MAX_UPLOAD_SIZE then (store, errObj "file too large", 400)
          else
            let name := env.timestamp ++ "_" ++ filename
            let store1 := setFile store name f.content
            let thumb_name := "thumb_" ++ name
            let outcome :=
              if env.PIL_AVAILABLE then make_thumbnail env store1 name thumb_name
              else (store1, false)
            let url := "/uploads/" ++ name
            let thumb_url :=
              if outcome.2 then Json.str ("/uploads/" ++ thumb_name) else Json.null
            (outcome.1, .obj [("url", .str url), ("thumbnail", thumb_url)], 200)

/-- `GET /uploads/<path:filename>` (app.py:209-211): serves the stored
bytes, or 404 (`none`) when the name is absent. -/
def uploads_serve (store : Uploads) (filename : String) : Option (List Nat) :=
  getFile store filename

/-! ## Contact intake -/

/-- `int()` applied to a string: optional surrounding whitespace and
sign, then decimal digits; anything else raises `ValueError`
(digit-grouping underscores are not modelled). -/
def pyIntParse (s : String) : Option Int :=
  let t := pyStripChars s.data
  let body := match t with
    | '-' :: rest => rest
    | '+' :: rest => rest
    | l => l
  if !body.isEmpty && body.all Char.isDigit then
    let n : Nat := body.foldl (fun acc c => acc * 10 + (c.toNat - 48)) 0
    some (match t with
      | '-' :: _ => -(n : Int)
      | _ => (n : Int))
  else none

/-- The SMTP-related environment variables (`os.getenv`: `none` when
unset). -/
structure SmtpConfig where
  SMTP_HOST : Option String
  SMTP_USER : Option String
  SMTP_PASS : Option String
  SMTP_PORT : Option String
  ADMIN_EMAIL : Option String

/-- Truthiness of an `os.getenv` result: set and non-empty. -/
def envTruthy : Option String → Bool
  | none => false
  | some s => s != ""

/-- `int(os.getenv("SMTP_PORT", "587") or 587)` (app.py:136): the
default `"587"` applies when the variable is unset, the `or` replaces
an empty value by the integer `587`, and a non-numeric value raises
`ValueError`, which nothing catches. -/
def smtpPortVal (port : Option String) : Except Unit Int :=
  match port with
  | none => .ok 587
  | some s =>
      if s = "" then .ok 587
      else
        match pyIntParse s with
        | some n => .ok n
        | none => .error ()

/-- The messages directory: filename stem to saved JSON entry. -/
abbrev Messages := List (String × Json)

/-- Configuration and external collaborators of the contact handler. -/
structure ContactEnv where
  cfg : SmtpConfig
  /-- `datetime.utcnow().isoformat()` evaluated at app.py:125. -/
  now_iso : String
  /-- `datetime.utcnow().strftime("%Y%m%d%H%M%S")` evaluated at app.py:128. -/
  now_stamp : String
  /-- outcome of the SMTP session (app.py:140-150): `.error (str e)`
  when any step of the `try` block raises. -/
  smtp_result : Except String Unit

/-- `smtp_host and smtp_user and smtp_pass and admin_email`
(app.py:138): all four set and non-empty. -/
def smtpConfigured (cfg : SmtpConfig) : Bool :=
  envTruthy cfg.SMTP_HOST && envTruthy cfg.SMTP_USER &&
  envTruthy cfg.SMTP_PASS && envTruthy cfg.ADMIN_EMAIL

/-- `POST /api/contact` (app.py:112-154). -/
def contact (env : ContactEnv) (msgs : Messages) (body : Option Json) :
    Except Unit (Messages × Json × Nat) := do
  let data := pyOrDict body
  let name ← pyStrip (pyOrEmpty (← data.pyGetD "name" .null))
  let email ← pyStrip (pyOrEmpty (← data.pyGetD "email" .null))
  let message ← pyStrip (pyOrEmpty (← data.pyGetD "message" .null))
  if name = "" || email = "" || message = "" then
    return (msgs, errObj "name, email, message required", 400)
  let entry : Json := .obj [("name", .str name), ("email", .str email),
    ("message", .str message), ("received_at", .str (env.now_iso ++ "Z"))]
  let fname := "message_" ++ env.now_stamp
  let msgs1 := setFile msgs fname entry
  let _smtp_port ← smtpPortVal env.cfg.SMTP_PORT
  if smtpConfigured env.cfg then
    match env.smtp_result with
    | .ok _ => return (msgs1, .obj [("status", .str "sent")], 200)
    | .error e => return (msgs1, .obj [("status", .str "saved"), ("note", .str e)], 200)
  else
    return (msgs1, .obj [("status", .str "saved")], 200)

/-! ## Helper lemmas -/

theorem getFile_setFile_self {α : Type} (store : List (String × α)) (k : String) (v : α) :
    getFile (setFile store k v) k = some v := by
  induction store with
  | nil => simp [getFile, setFile]
  | cons p rest ih =>
      obtain ⟨k', w⟩ := p
      by_cases h : k' = k
      · simp [setFile, h, getFile]
      · simp [setFile, h, getFile, ih]

theorem getFile_setFile_ne {α : Type} (store : List (String × α)) (k k' : String) (v : α)
    (h : k' ≠ k) : getFile (setFile store k v) k' = getFile store k' := by
  induction store with
  | nil => simp [getFile, setFile, Ne.symm h]
  | cons p rest ih =>
      obtain ⟨k'', w⟩ := p
      by_cases hk : k'' = k
      · subst hk
        simp [setFile, getFile, Ne.symm h]
      · simp only [setFile, if_neg hk, getFile]
        by_cases hk' : k'' = k'
        · simp [hk']
        · simp [hk', ih]

theorem char_toLower_toLower (c : Char) : c.toLower.toLower = c.toLower := by
  unfold Char.toLower
  by_cases h : c.toNat ≥ 65 ∧ c.toNat ≤ 90
  · have hv : (c.toNat + 32).isValidChar := Or.inl (by omega)
    have ht : (Char.ofNat (c.toNat + 32)).toNat = c.toNat + 32 := by
      rw [Char.ofNat, dif_pos hv]; rfl
    rw [if_pos h, ht, if_neg (by omega)]
  · rw [if_neg h, if_neg h]

theorem pyLower_pyLower (s : String) : pyLower (pyLower s) = pyLower s := by
  simp only [pyLower, List.map_map]
  congr 1
  exact List.map_congr_left fun c _ => char_toLower_toLower c

/-- If the (sanitized) extension matches no configured extension even
case-insensitively, the code's membership test fails. -/
theorem strMem_eq_false_of_ci (exts : List String) (ext : String)
    (h : ∀ e ∈ exts, pyLower e ≠ pyLower ext) :
    strMem (pyLower ext) exts = false := by
  induction exts with
  | nil => rfl
  | cons a rest ih =>
      have ha : a ≠ pyLower ext := by
        intro hc
        exact h a (by simp) (by rw [hc]; exact pyLower_pyLower ext)
      simp only [strMem, if_neg ha]
      exact ih fun e he => h e (by simp [he])

theorem thumb_name_ne (name : String) : "thumb_" ++ name ≠ name := by
  intro h
  have hlen := congrArg String.length h
  have h6 : ("thumb_" : String).length = 6 := rfl
  rw [String.length_append, h6] at hlen
  omega

@[simp] theorem except_bind_ok {ε α β : Type} (a : α) (f : α → Except ε β) :
    ((Except.ok a : Except ε α) >>= f) = f a := rfl

@[simp] theorem except_bind_error {ε α β : Type} (e : ε) (f : α → Except ε β) :
    ((Except.error e : Except ε α) >>= f) = Except.error e := rfl

@[simp] theorem except_pure_def {ε α : Type} (a : α) :
    (pure a : Except ε α) = Except.ok a := rfl

@[simp] theorem truthy_str (s : String) : (Json.str s).truthy = (s != "") := rfl

@[simp] theorem truthy_obj (fields : List (String × Json)) :
    (Json.obj fields).truthy = !fields.isEmpty := rfl

/-! ## Behavior lemmas for the document store -/

theorem get_page_of_absent (fs : ContentFS) (lang slug : String)
    (h : pageFile fs lang slug = none) :
    get_page fs (some lang) slug = .ok (errObj "not found", 404) := by
  unfold get_page
  simp [h, load_json_file]

theorem get_page_of_corrupt (fs : ContentFS) (lang slug : String)
    (h : pageFile fs lang slug = some .corrupt) :
    get_page fs (some lang) slug = .error () := by
  unfold get_page
  simp [h, load_json_file]

theorem get_page_of_truthy (fs : ContentFS) (lang slug : String) (j : Json)
    (h : pageFile fs lang slug = some (.json j)) (ht : j.truthy = true) :
    get_page fs (some lang) slug = .ok (j, 200) := by
  unfold get_page
  simp [h, load_json_file, ht]

theorem get_page_of_falsy (fs : ContentFS) (lang slug : String) (j : Json)
    (h : pageFile fs lang slug = some (.json j)) (ht : j.truthy = false) :
    get_page fs (some lang) slug = .ok (errObj "not found", 404) := by
  unfold get_page
  simp [h, load_json_file, ht]

theorem get_project_of_absent (fs : ContentFS) (lang slug : String)
    (h : projectFile fs lang slug = none) :
    get_project fs (some lang) slug = .ok (errObj "not found", 404) := by
  unfold get_project
  simp [h, load_json_file]

theorem get_project_of_corrupt (fs : ContentFS) (lang slug : String)
    (h : projectFile fs lang slug = some .corrupt) :
    get_project fs (some lang) slug = .error () := by
  unfold get_project
  simp [h, load_json_file]

theorem get_project_of_truthy (fs : ContentFS) (lang slug : String) (j : Json)
    (h : projectFile fs lang slug = some (.json j)) (ht : j.truthy = true) :
    get_project fs (some lang) slug = .ok (j, 200) := by
  unfold get_project
  simp [h, load_json_file, ht]

theorem get_project_of_falsy (fs : ContentFS) (lang slug : String) (j : Json)
    (h : projectFile fs lang slug = some (.json j)) (ht : j.truthy = false) :
    get_project fs (some lang) slug = .ok (errObj "not found", 404) := by
  unfold get_project
  simp [h, load_json_file, ht]

/-- A request body whose `slug` field extracts as a string is a
non-empty JSON object, hence truthy. -/
theorem body_truthy_of_slug (data : Json) (slug : String)
    (hslug : data.pyGetD "slug" .null = .ok (.str slug)) :
    data.truthy = true := by
  cases data with
  | obj fields =>
      cases fields with
      | nil => simp [Json.pyGetD, getFile] at hslug
      | cons f r => simp [Json.truthy]
  | null => simp [Json.pyGetD] at hslug
  | bool b => simp [Json.pyGetD] at hslug
  | num n => simp [Json.pyGetD] at hslug
  | str s => simp [Json.pyGetD] at hslug
  | arr l => simp [Json.pyGetD] at hslug

theorem create_page_conflict (ADMIN_TOKEN lang slug : String) (fs : ContentFS)
    (data : Json)
    (hlang : data.pyGetD "lang" (.str "ar") = .ok (.str lang))
    (hslug : data.pyGetD "slug" .null = .ok (.str slug))
    (hne : slug ≠ "")
    (hfile : (pageFile fs lang slug).isSome = true) :
    create_page ADMIN_TOKEN fs (some ADMIN_TOKEN) (some data) =
      .ok (fs, errObj "already exists", 400) := by
  have htr := body_truthy_of_slug data slug hslug
  have hbne : (slug != "") = true := bne_iff_ne.mpr hne
  unfold create_page
  simp [pyOrDict, htr, hlang, hslug, hbne, Json.pyFStr, hfile]

theorem create_page_writes (ADMIN_TOKEN lang slug : String) (fs : ContentFS)
    (data : Json)
    (hlang : data.pyGetD "lang" (.str "ar") = .ok (.str lang))
    (hslug : data.pyGetD "slug" .null = .ok (.str slug))
    (hne : slug ≠ "")
    (hnofile : pageFile fs lang slug = none) :
    create_page ADMIN_TOKEN fs (some ADMIN_TOKEN) (some data) =
      .ok (writePage fs lang slug data,
           .obj [("status", .str "created"), ("slug", .str slug)], 201) := by
  have htr := body_truthy_of_slug data slug hslug
  have hbne : (slug != "") = true := bne_iff_ne.mpr hne
  unfold create_page
  simp [pyOrDict, htr, hlang, hslug, hbne, Json.pyFStr, hnofile]

/-- After `save_json_file`, the written page is on disk. -/
theorem pageFile_writePage (fs : ContentFS) (lang slug : String) (data : Json) :
    pageFile (writePage fs lang slug data) lang slug = some (.json data) := by
  unfold pageFile writePage
  simp [getFile_setFile_self]

/-! ## Behavior lemmas for the listing loops -/

theorem pageSummaries_cons_congr (stem : String) (file : FileContent) (l₁ l₂ : Dir)
    (h : pageSummaries l₁ = pageSummaries l₂) :
    pageSummaries ((stem, file) :: l₁) = pageSummaries ((stem, file) :: l₂) := by
  unfold pageSummaries
  simp only [h]

theorem projectSummaries_cons_congr (stem : String) (file : FileContent) (l₁ l₂ : Dir)
    (h : projectSummaries l₁ = projectSummaries l₂) :
    projectSummaries ((stem, file) :: l₁) = projectSummaries ((stem, file) :: l₂) := by
  unfold projectSummaries
  simp only [h]

/-- A file whose content parses to a falsy value is skipped by the
page-listing loop. -/
theorem pageSummaries_skip_falsy (pre post : Dir) (s : String) (j : Json)
    (hj : j.truthy = false) :
    pageSummaries (pre ++ (s, .json j) :: post) = pageSummaries (pre ++ post) := by
  induction pre with
  | nil =>
      simp only [List.nil_append]
      conv_lhs => unfold pageSummaries
      simp [load_json_file, hj]
  | cons p rest ih =>
      obtain ⟨stem, file⟩ := p
      simp only [List.cons_append]
      exact pageSummaries_cons_congr stem file _ _ ih

/-- A file whose content parses to a falsy value is skipped by the
project-listing loop. -/
theorem projectSummaries_skip_falsy (pre post : Dir) (s : String) (j : Json)
    (hj : j.truthy = false) :
    projectSummaries (pre ++ (s, .json j) :: post) = projectSummaries (pre ++ post) := by
  induction pre with
  | nil =>
      simp only [List.nil_append]
      conv_lhs => unfold projectSummaries
      simp [load_json_file, hj]
  | cons p rest ih =>
      obtain ⟨stem, file⟩ := p
      simp only [List.cons_append]
      exact projectSummaries_cons_congr stem file _ _ ih

/-- A corrupt file anywhere in the directory makes the page-listing
loop raise. -/
theorem pageSummaries_corrupt (dir : Dir)
    (h : ∃ p ∈ dir, p.2 = FileContent.corrupt) :
    pageSummaries dir = .error () := by
  induction dir with
  | nil => simp at h
  | cons p rest ih =>
      obtain ⟨stem, file⟩ := p
      cases file with
      | corrupt =>
          unfold pageSummaries
          simp [load_json_file]
      | json j =>
          have hrest : ∃ q ∈ rest, q.2 = FileContent.corrupt := by
            obtain ⟨q, hq, hc⟩ := h
            rcases List.mem_cons.mp hq with hq' | hq'
            · subst hq'; simp at hc
            · exact ⟨q, hq', hc⟩
          unfold pageSummaries
          by_cases ht : j.truthy
          · cases hg : j.pyGetD "title" .null with
            | ok t => simp [load_json_file, ht, hg, ih hrest]
            | error e => simp [load_json_file, ht, hg]
          · simp [load_json_file, ht, ih hrest]

/-- A corrupt file anywhere in the directory makes the project-listing
loop raise. -/
theorem projectSummaries_corrupt (dir : Dir)
    (h : ∃ p ∈ dir, p.2 = FileContent.corrupt) :
    projectSummaries dir = .error () := by
  induction dir with
  | nil => simp at h
  | cons p rest ih =>
      obtain ⟨stem, file⟩ := p
      cases file with
      | corrupt =>
          unfold projectSummaries
          simp [load_json_file]
      | json j =>
          have hrest : ∃ q ∈ rest, q.2 = FileContent.corrupt := by
            obtain ⟨q, hq, hc⟩ := h
            rcases List.mem_cons.mp hq with hq' | hq'
            · subst hq'; simp at hc
            · exact ⟨q, hq', hc⟩
          unfold projectSummaries
          by_cases ht : j.truthy
          · cases hg1 : j.pyGetD "title" .null with
            | error e => simp [load_json_file, ht, hg1]
            | ok t =>
                cases hg2 : j.pyGetD "summary" .null with
                | error e => simp [load_json_file, ht, hg1, hg2]
                | ok su =>
                    cases hg3 : j.pyGetD "images" (.arr []) with
                    | error e => simp [load_json_file, ht, hg1, hg2, hg3]
                    | ok im => simp [load_json_file, ht, hg1, hg2, hg3, ih hrest]
          · simp [load_json_file, ht, ih hrest]

/-- A file that is neither corrupt nor a truthy non-object: these are
the files on which the listing loops cannot raise. -/
def cleanFile : FileContent → Bool
  | .corrupt => false
  | .json (.obj _) => true
  | .json j => !j.truthy

/-- A stored file whose parsed content is truthy (the files the
listing loops summarize). -/
def fileTruthy : FileContent → Bool
  | .corrupt => false
  | .json j => j.truthy

/-- On a directory of clean files the page-listing loop succeeds and
produces exactly one summary per truthy file. -/
theorem pageSummaries_clean (dir : Dir) (h : ∀ p ∈ dir, cleanFile p.2 = true) :
    ∃ l, pageSummaries dir = .ok l ∧
      l.length = (dir.filter fun p => fileTruthy p.2).length := by
  induction dir with
  | nil => exact ⟨[], rfl, rfl⟩
  | cons p rest ih =>
      obtain ⟨stem, file⟩ := p
      obtain ⟨l, hl, hlen⟩ := ih fun q hq => h q (List.mem_cons_of_mem _ hq)
      have hp := h (stem, file) (List.mem_cons_self _ _)
      cases file with
      | corrupt => simp [cleanFile] at hp
      | json j =>
          cases ht : j.truthy with
          | true =>
              have hobj : ∃ fields, j = .obj fields := by
                cases j with
                | obj fields => exact ⟨fields, rfl⟩
                | null => exact absurd ht (by simp [Json.truthy])
                | bool b =>
                    exfalso
                    simp [cleanFile, Json.truthy] at hp
                    simp [Json.truthy, hp] at ht
                | num n =>
                    exfalso
                    simp [cleanFile, Json.truthy] at hp
                    simp [Json.truthy, hp] at ht
                | str s =>
                    exfalso
                    simp [cleanFile] at hp
                    simp [hp] at ht
                | arr el =>
                    exfalso
                    simp [cleanFile, Json.truthy] at hp
                    simp [Json.truthy, hp] at ht
              obtain ⟨fields, rfl⟩ := hobj
              refine ⟨(.obj [("slug", .str stem),
                ("title", (getFile fields "title").getD .null)]) :: l, ?_, ?_⟩
              · conv_lhs => unfold pageSummaries
                simp [load_json_file, ht, Json.pyGetD, hl]
              · simp [List.filter_cons, fileTruthy, ht, hlen]
          | false =>
              refine ⟨l, ?_, ?_⟩
              · conv_lhs => unfold pageSummaries
                simp [load_json_file, ht, hl]
              · have hft : fileTruthy (.json j) = false := by simp [fileTruthy, ht]
                simp [List.filter_cons, hft, hlen]

/-- On a directory of clean files the project-listing loop succeeds
and produces exactly one summary per truthy file. -/
theorem projectSummaries_clean (dir : Dir) (h : ∀ p ∈ dir, cleanFile p.2 = true) :
    ∃ l, projectSummaries dir = .ok l ∧
      l.length = (dir.filter fun p => fileTruthy p.2).length := by
  induction dir with
  | nil => exact ⟨[], rfl, rfl⟩
  | cons p rest ih =>
      obtain ⟨stem, file⟩ := p
      obtain ⟨l, hl, hlen⟩ := ih fun q hq => h q (List.mem_cons_of_mem _ hq)
      have hp := h (stem, file) (List.mem_cons_self _ _)
      cases file with
      | corrupt => simp [cleanFile] at hp
      | json j =>
          cases ht : j.truthy with
          | true =>
              have hobj : ∃ fields, j = .obj fields := by
                cases j with
                | obj fields => exact ⟨fields, rfl⟩
                | null => exact absurd ht (by simp [Json.truthy])
                | bool b =>
                    exfalso
                    simp [cleanFile, Json.truthy] at hp
                    simp [Json.truthy, hp] at ht
                | num n =>
                    exfalso
                    simp [cleanFile, Json.truthy] at hp
                    simp [Json.truthy, hp] at ht
                | str s =>
                    exfalso
                    simp [cleanFile] at hp
                    simp [hp] at ht
                | arr el =>
                    exfalso
                    simp [cleanFile, Json.truthy] at hp
                    simp [Json.truthy, hp] at ht
              obtain ⟨fields, rfl⟩ := hobj
              refine ⟨(.obj [("slug", .str stem),
                ("title", (getFile fields "title").getD .null),
                ("summary", (getFile fields "summary").getD .null),
                ("images", (getFile fields "images").getD (.arr []))]) :: l, ?_, ?_⟩
              · conv_lhs => unfold projectSummaries
                simp [load_json_file, ht, Json.pyGetD, hl]
              · simp [List.filter_cons, fileTruthy, ht, hlen]
          | false =>
              refine ⟨l, ?_, ?_⟩
              · conv_lhs => unfold projectSummaries
                simp [load_json_file, ht, hl]
              · have hft : fileTruthy (.json j) = false := by simp [fileTruthy, ht]
                simp [List.filter_cons, hft, hlen]

/-! ## Concrete fixtures -/

/-- Concrete content tree: language `ar` has a corrupt page file `x`,
a valid but falsy page file `empty` (content `{}`) and a valid page
`home`; its projects directory has a corrupt file `pj`. -/
def demoFS : ContentFS :=
  { pages := [("ar", [("x", .corrupt), ("empty", .json (.obj [])),
                      ("home", .json (.obj [("title", .str "Home")]))])],
    projects := [("ar", [("pj", .corrupt)])] }

/-- The C3 scenario: a language directory with two valid JSON files
and one corrupt JSON file. -/
def c3FS : ContentFS :=
  { pages := [("en", [("a", .json (.obj [("title", .str "A")])),
                      ("bad", .corrupt),
                      ("b", .json (.obj [("title", .str "B")]))])],
    projects := [] }

/-- Like `c3FS` but without the corrupt file. -/
def c3CleanFS : ContentFS :=
  { pages := [("en", [("a", .json (.obj [("title", .str "A")])),
                      ("b", .json (.obj [("title", .str "B")]))])],
    projects := [] }

/-- A valid page-creation body. -/
def demoDoc : Json :=
  .obj [("lang", .str "en"), ("slug", .str "p"), ("title", .str "T")]

/-! ## Claims -/

/-- C1 (amended): when the document file is absent, the get endpoints
(`GET /api/pages/<slug>` and `GET /api/projects/<slug>`) return the
404 not-found body and raise nothing; but when the file exists and is
unreadable/unparsable, the parse exception propagates out of the
handler uncaught (it is not turned into a NotFound result). -/
theorem C1_get_absent_notfound_corrupt_raises (fs : ContentFS) (lang slug : String) :
    (pageFile fs lang slug = none →
      get_page fs (some lang) slug = .ok (errObj "not found", 404)) ∧
    (projectFile fs lang slug = none →
      get_project fs (some lang) slug = .ok (errObj "not found", 404)) ∧
    (pageFile fs lang slug = some .corrupt →
      get_page fs (some lang) slug = .error ()) ∧
    (projectFile fs lang slug = some .corrupt →
      get_project fs (some lang) slug = .error ()) :=
  ⟨get_page_of_absent fs lang slug, get_project_of_absent fs lang slug,
   get_page_of_corrupt fs lang slug, get_project_of_corrupt fs lang slug⟩

/-- C1 witness: the four cases at concrete inputs. -/
theorem C1_get_absent_notfound_corrupt_raises_witness :
    get_page demoFS (some "ar") "missing" = .ok (errObj "not found", 404) ∧
    get_project demoFS (some "ar") "missing" = .ok (errObj "not found", 404) ∧
    get_page demoFS (some "ar") "x" = .error () ∧
    get_project demoFS (some "ar") "pj" = .error () :=
  ⟨(C1_get_absent_notfound_corrupt_raises demoFS "ar" "missing").1 rfl,
   (C1_get_absent_notfound_corrupt_raises demoFS "ar" "missing").2.1 rfl,
   (C1_get_absent_notfound_corrupt_raises demoFS "ar" "x").2.2.1 rfl,
   (C1_get_absent_notfound_corrupt_raises demoFS "ar" "pj").2.2.2 rfl⟩

/-- C1 counterexample: the page file `(ar, x)` exists but is
unparsable; the get operation propagates the parse exception rather
than returning a NotFound result. -/
theorem C1_counterexample :
    get_page demoFS (some "ar") "x" = .error () ∧
    get_page demoFS (some "ar") "x" ≠ .ok (errObj "not found", 404) := by
  refine ⟨rfl, ?_⟩
  intro h
  rw [show get_page demoFS (some "ar") "x" = .error () from rfl] at h
  exact Except.noConfusion h

/-- C2 (amended): when the document file exists and holds valid JSON
that is truthy (as every document written by `create_page` is), `get`
returns exactly the persisted content with status 200; in particular
the `create`-then-`get` round-trip returns the created document
unchanged. -/
theorem C2_get_roundtrip :
    (∀ (fs : ContentFS) (lang slug : String) (j : Json),
      pageFile fs lang slug = some (.json j) → j.truthy = true →
      get_page fs (some lang) slug = .ok (j, 200)) ∧
    (∀ (fs : ContentFS) (lang slug : String) (j : Json),
      projectFile fs lang slug = some (.json j) → j.truthy = true →
      get_project fs (some lang) slug = .ok (j, 200)) ∧
    (∀ (ADMIN_TOKEN lang slug : String) (fs : ContentFS) (data : Json),
      data.pyGetD "lang" (.str "ar") = .ok (.str lang) →
      data.pyGetD "slug" .null = .ok (.str slug) →
      slug ≠ "" →
      pageFile fs lang slug = none →
      create_page ADMIN_TOKEN fs (some ADMIN_TOKEN) (some data) =
        .ok (writePage fs lang slug data,
             .obj [("status", .str "created"), ("slug", .str slug)], 201) ∧
      get_page (writePage fs lang slug data) (some lang) slug = .ok (data, 200)) := by
  refine ⟨get_page_of_truthy, get_project_of_truthy, ?_⟩
  intro ADMIN_TOKEN lang slug fs data hlang hslug hne hnofile
  refine ⟨create_page_writes ADMIN_TOKEN lang slug fs data hlang hslug hne hnofile, ?_⟩
  exact get_page_of_truthy _ lang slug data (pageFile_writePage fs lang slug data)
    (body_truthy_of_slug data slug hslug)

/-- C2 witness: reading an existing truthy page, and a full
create-then-read round-trip, at concrete inputs. -/
theorem C2_get_roundtrip_witness :
    get_page demoFS (some "ar") "home" = .ok (.obj [("title", .str "Home")], 200) ∧
    create_page "changeme" ⟨[], []⟩ (some "changeme") (some demoDoc) =
      .ok (writePage ⟨[], []⟩ "en" "p" demoDoc,
           .obj [("status", .str "created"), ("slug", .str "p")], 201) ∧
    get_page (writePage ⟨[], []⟩ "en" "p" demoDoc) (some "en") "p" =
      .ok (demoDoc, 200) := by
  refine ⟨C2_get_roundtrip.1 demoFS "ar" "home" _ rfl rfl, ?_, ?_⟩
  · exact (C2_get_roundtrip.2.2 "changeme" "en" "p" ⟨[], []⟩ demoDoc rfl rfl
      (by decide) rfl).1
  · exact (C2_get_roundtrip.2.2 "changeme" "en" "p" ⟨[], []⟩ demoDoc rfl rfl
      (by decide) rfl).2

/-- C2 counterexample: the page file `(ar, empty)` exists and holds
the valid JSON document `{}`, yet `get` answers 404 instead of the
persisted content. -/
theorem C2_counterexample :
    get_page demoFS (some "ar") "empty" = .ok (errObj "not found", 404) ∧
    get_page demoFS (some "ar") "empty" ≠ .ok (.obj [], 200) := by
  refine ⟨rfl, ?_⟩
  intro h
  rw [show get_page demoFS (some "ar") "empty" = .ok (errObj "not found", 404)
    from rfl] at h
  simp [errObj] at h

/-- C3 (amended): the list endpoints enumerate the `.json` files of
the language directory and return one summary per file whose content
parses truthy; but a file that fails to parse is not skipped — the
parse exception propagates and the whole request fails. -/
theorem C3_list_skips_falsy_corrupt_raises :
    (∀ (fs : ContentFS) (lang : String) (dir : Dir),
      getFile fs.pages lang = some dir →
      (∃ p ∈ dir, p.2 = FileContent.corrupt) →
      list_pages fs (some lang) = .error ()) ∧
    (∀ (fs : ContentFS) (lang : String) (dir : Dir),
      getFile fs.pages lang = some dir →
      (∀ p ∈ dir, cleanFile p.2 = true) →
      ∃ l, list_pages fs (some lang) = .ok (.arr l, 200) ∧
        l.length = (dir.filter fun p => fileTruthy p.2).length) ∧
    (∀ (fs : ContentFS) (lang : String) (dir : Dir),
      getFile fs.projects lang = some dir →
      (∃ p ∈ dir, p.2 = FileContent.corrupt) →
      list_projects fs (some lang) = .error ()) ∧
    (∀ (fs : ContentFS) (lang : String) (dir : Dir),
      getFile fs.projects lang = some dir →
      (∀ p ∈ dir, cleanFile p.2 = true) →
      ∃ l, list_projects fs (some lang) = .ok (.arr l, 200) ∧
        l.length = (dir.filter fun p => fileTruthy p.2).length) := by
  refine ⟨?_, ?_, ?_, ?_⟩
  · intro fs lang dir hdir hc
    unfold list_pages
    simp [hdir, pageSummaries_corrupt dir hc]
  · intro fs lang dir hdir hclean
    obtain ⟨l, hl, hlen⟩ := pageSummaries_clean dir hclean
    refine ⟨l, ?_, hlen⟩
    unfold list_pages
    simp [hdir, hl]
  · intro fs lang dir hdir hc
    unfold list_projects
    simp [hdir, projectSummaries_corrupt dir hc]
  · intro fs lang dir hdir hclean
    obtain ⟨l, hl, hlen⟩ := projectSummaries_clean dir hclean
    refine ⟨l, ?_, hlen⟩
    unfold list_projects
    simp [hdir, hl]

/-- C3 witness: the 2-valid-plus-1-corrupt directory makes the listing
raise; without the corrupt file it yields exactly two summaries. -/
theorem C3_list_skips_falsy_corrupt_raises_witness :
    list_pages c3FS (some "en") = .error () ∧
    ∃ l, list_pages c3CleanFS (some "en") = .ok (.arr l, 200) ∧ l.length = 2 := by
  constructor
  · exact C3_list_skips_falsy_corrupt_raises.1 c3FS "en" _ rfl
      ⟨("bad", FileContent.corrupt),
       List.mem_cons_of_mem _ (List.mem_cons_self _ _), rfl⟩
  · obtain ⟨l, hl, hlen⟩ := C3_list_skips_falsy_corrupt_raises.2.1 c3CleanFS "en" _ rfl
      (by decide)
    exact ⟨l, hl, by rw [hlen]; rfl⟩

/-- C3 counterexample: listing a language directory holding two valid
JSON files and one corrupt one does not return two summaries — the
request dies with the uncaught parse exception. -/
theorem C3_counterexample : list_pages c3FS (some "en") = .error () := rfl

/-- C4: with a valid admin token and a well-formed body, create on an
already-existing target answers the conflict error (400
"already exists") and returns the content tree unchanged; when the
target does not exist, the supplied document is written there
(creating the language directory as needed). -/
theorem C4_create_conflict_or_write :
    (∀ (ADMIN_TOKEN lang slug : String) (fs : ContentFS) (data : Json),
      data.pyGetD "lang" (.str "ar") = .ok (.str lang) →
      data.pyGetD "slug" .null = .ok (.str slug) →
      slug ≠ "" →
      (pageFile fs lang slug).isSome = true →
      create_page ADMIN_TOKEN fs (some ADMIN_TOKEN) (some data) =
        .ok (fs, errObj "already exists", 400)) ∧
    (∀ (ADMIN_TOKEN lang slug : String) (fs : ContentFS) (data : Json),
      data.pyGetD "lang" (.str "ar") = .ok (.str lang) →
      data.pyGetD "slug" .null = .ok (.str slug) →
      slug ≠ "" →
      pageFile fs lang slug = none →
      create_page ADMIN_TOKEN fs (some ADMIN_TOKEN) (some data) =
        .ok (writePage fs lang slug data,
             .obj [("status", .str "created"), ("slug", .str slug)], 201) ∧
      pageFile (writePage fs lang slug data) lang slug = some (.json data)) := by
  refine ⟨create_page_conflict, ?_⟩
  intro ADMIN_TOKEN lang slug fs data hlang hslug hne hnofile
  exact ⟨create_page_writes ADMIN_TOKEN lang slug fs data hlang hslug hne hnofile,
         pageFile_writePage fs lang slug data⟩

/-- C4 witness: a conflicting create against `demoFS`'s existing
`(ar, home)` page, and a successful create of a fresh page. -/
theorem C4_create_conflict_or_write_witness :
    create_page "changeme" demoFS (some "changeme")
        (some (.obj [("lang", .str "ar"), ("slug", .str "home")])) =
      .ok (demoFS, errObj "already exists", 400) ∧
    create_page "changeme" ⟨[], []⟩ (some "changeme")
        (some (.obj [("lang", .str "ar"), ("slug", .str "home")])) =
      .ok (writePage ⟨[], []⟩ "ar" "home" (.obj [("lang", .str "ar"), ("slug", .str "home")]),
           .obj [("status", .str "created"), ("slug", .str "home")], 201) :=
  ⟨C4_create_conflict_or_write.1 "changeme" "ar" "home" demoFS
     (.obj [("lang", .str "ar"), ("slug", .str "home")]) rfl rfl (by decide) rfl,
   (C4_create_conflict_or_write.2 "changeme" "ar" "home" ⟨[], []⟩
     (.obj [("lang", .str "ar"), ("slug", .str "home")]) rfl rfl (by decide) rfl).1⟩

/-- C10: a document file that exists and parses to a falsy JSON value
(`{}`, `null`, `false`, `0`, `""`, `[]`) yields a 404 NotFound from
the get endpoints, and the listing loops omit it from the returned
summaries. -/
theorem C10_falsy_documents_hidden :
    (∀ (fs : ContentFS) (lang slug : String) (j : Json), j.truthy = false →
      pageFile fs lang slug = some (.json j) →
      get_page fs (some lang) slug = .ok (errObj "not found", 404)) ∧
    (∀ (fs : ContentFS) (lang slug : String) (j : Json), j.truthy = false →
      projectFile fs lang slug = some (.json j) →
      get_project fs (some lang) slug = .ok (errObj "not found", 404)) ∧
    (∀ (pre post : Dir) (s : String) (j : Json), j.truthy = false →
      pageSummaries (pre ++ (s, .json j) :: post) = pageSummaries (pre ++ post)) ∧
    (∀ (pre post : Dir) (s : String) (j : Json), j.truthy = false →
      projectSummaries (pre ++ (s, .json j) :: post) = projectSummaries (pre ++ post)) :=
  ⟨fun fs lang slug j ht h => get_page_of_falsy fs lang slug j h ht,
   fun fs lang slug j ht h => get_project_of_falsy fs lang slug j h ht,
   fun pre post s j ht => pageSummaries_skip_falsy pre post s j ht,
   fun pre post s j ht => projectSummaries_skip_falsy pre post s j ht⟩

/-- A concrete upload environment: the default configuration with the
identity sanitizer, Pillow available and succeeding. -/
def demoUploadEnv : UploadEnv :=
  { ALLOWED_EXT := default_allowed_ext
    MAX_UPLOAD_SIZE := default_max_upload_size
    PIL_AVAILABLE := true
    secure_filename := fun s => s
    timestamp := "20260101120000"
    pil_ok := true
    thumb_bytes := fun _ => [7] }

/-- `demoUploadEnv` with Pillow unavailable. -/
def demoUploadEnvNoPil : UploadEnv :=
  { demoUploadEnv with PIL_AVAILABLE := false }

/-- C5: an upload request with no file part, an empty filename, a
sanitized filename whose extension is not in the configured allow-set
even when compared case-insensitively, or a size strictly over the
configured maximum, is answered 400 and writes nothing to the uploads
directory. -/
theorem C5_upload_rejections (env : UploadEnv) (store : Uploads)
    (file? : Option UploadFile)
    (h : file? = none ∨
      ∃ f, file? = some f ∧
        (f.filename = "" ∨
         (∀ e ∈ env.ALLOWED_EXT,
            pyLower e ≠ pyLower (file_ext (env.secure_filename f.filename))) ∨
         f.content.length > env.MAX_UPLOAD_SIZE)) :
    (uploads env store file?).1 = store ∧ (uploads env store file?).2.2 = 400 := by
  rcases h with h | ⟨f, hf, hcase⟩
  · subst h; exact ⟨rfl, rfl⟩
  · subst hf
    by_cases hfn : f.filename = ""
    · unfold uploads; simp [hfn]
    · rcases hcase with he | hext | hsize
      · exact absurd he hfn
      · have hall : is_allowed_filename env.ALLOWED_EXT
            (env.secure_filename f.filename) = false := by
          unfold is_allowed_filename
          exact strMem_eq_false_of_ci _ _ hext
        unfold uploads
        simp [hfn, hall]
      · by_cases hal : is_allowed_filename env.ALLOWED_EXT
            (env.secure_filename f.filename)
        · unfold uploads; simp [hfn, hal, hsize]
        · unfold uploads; simp [hfn, hal]

/-- C5 witness: a disallowed `.exe` upload under the default
configuration is rejected without a write. -/
theorem C5_upload_rejections_witness :
    (uploads demoUploadEnv [] (some ⟨"evil.exe", [0, 1]⟩)).1 = [] ∧
    (uploads demoUploadEnv [] (some ⟨"evil.exe", [0, 1]⟩)).2.2 = 400 :=
  C5_upload_rejections demoUploadEnv [] _
    (Or.inr ⟨_, rfl, Or.inr (Or.inl (by decide))⟩)

/-- C6: an accepted upload (file part present, nonempty filename,
allowed extension, size at or under the limit) stores the original at
`{timestamp}_{sanitized-filename}`; the returned `url` field is
`/uploads/{name}` and the serving endpoint resolves that name to the
stored bytes; no other stored name changes except the
`thumb_`-prefixed derivative. -/
theorem C6_upload_stores_file (env : UploadEnv) (store : Uploads) (f : UploadFile)
    (hfn : f.filename ≠ "")
    (hext : is_allowed_filename env.ALLOWED_EXT (env.secure_filename f.filename) = true)
    (hsize : f.content.length ≤ env.MAX_UPLOAD_SIZE) :
    (uploads env store (some f)).2.2 = 200 ∧
    getFile (uploads env store (some f)).1
        (env.timestamp ++ "_" ++ env.secure_filename f.filename) = some f.content ∧
    (uploads env store (some f)).2.1.pyGetD "url" .null =
      .ok (.str ("/uploads/" ++ (env.timestamp ++ "_" ++ env.secure_filename f.filename))) ∧
    uploads_serve (uploads env store (some f)).1
        (env.timestamp ++ "_" ++ env.secure_filename f.filename) = some f.content ∧
    (∀ p, p ≠ env.timestamp ++ "_" ++ env.secure_filename f.filename →
      p ≠ "thumb_" ++ (env.timestamp ++ "_" ++ env.secure_filename f.filename) →
      getFile (uploads env store (some f)).1 p = getFile store p) := by
  have hns : ¬ (f.content.length > env.MAX_UPLOAD_SIZE) := by omega
  unfold uploads uploads_serve make_thumbnail
  cases hpa : env.PIL_AVAILABLE with
  | false =>
      simp only [hpa, Bool.false_eq_true, if_false, if_neg hfn, hext, Bool.not_true,
        if_neg hns, if_true, if_pos rfl]
      simp [Json.pyGetD, getFile, getFile_setFile_self]
      intro p hp1 _
      exact getFile_setFile_ne store _ p f.content hp1
  | true =>
      cases hok : env.pil_ok with
      | false =>
          simp only [hpa, hok]
          simp [hfn, hext, hns, Json.pyGetD, getFile, getFile_setFile_self]
          intro p hp1 _
          exact getFile_setFile_ne store _ p f.content hp1
      | true =>
          simp only [hpa, hok]
          simp [hfn, hext, hns, Json.pyGetD, getFile, getFile_setFile_self,
            getFile_setFile_ne _ _ _ _ (Ne.symm (thumb_name_ne _))]
          intro p hp1 hp2
          rw [getFile_setFile_ne _ _ _ _ hp2, getFile_setFile_ne _ _ _ _ hp1]

/-- C6 witness: a 1-byte `photo.png` upload under the default
configuration. -/
theorem C6_upload_stores_file_witness :
    (uploads demoUploadEnv [] (some ⟨"photo.png", [9]⟩)).2.2 = 200 ∧
    getFile (uploads demoUploadEnv [] (some ⟨"photo.png", [9]⟩)).1
        "20260101120000_photo.png" = some [9] ∧
    uploads_serve (uploads demoUploadEnv [] (some ⟨"photo.png", [9]⟩)).1
        "20260101120000_photo.png" = some [9] := by
  have h := C6_upload_stores_file demoUploadEnv [] ⟨"photo.png", [9]⟩
    (by decide) (by decide) (by decide)
  exact ⟨h.1, h.2.1, h.2.2.2.1⟩

/-- C7: for an accepted upload, any thumbnailing failure — including
Pillow being unavailable — is swallowed: the upload still answers 200
with the original stored and the `thumbnail` field `null`; when
thumbnailing succeeds the field carries the `thumb_`-prefixed URL and
the thumbnail bytes are stored under `thumb_{storage-name}`. -/
theorem C7_thumbnail_best_effort (env : UploadEnv) (store : Uploads) (f : UploadFile)
    (hfn : f.filename ≠ "")
    (hext : is_allowed_filename env.ALLOWED_EXT (env.secure_filename f.filename) = true)
    (hsize : f.content.length ≤ env.MAX_UPLOAD_SIZE) :
    ((env.PIL_AVAILABLE = false ∨ env.pil_ok = false) →
      (uploads env store (some f)).2.2 = 200 ∧
      getFile (uploads env store (some f)).1
          (env.timestamp ++ "_" ++ env.secure_filename f.filename) = some f.content ∧
      (uploads env store (some f)).2.1.pyGetD "thumbnail" .null = .ok .null) ∧
    (env.PIL_AVAILABLE = true → env.pil_ok = true →
      (uploads env store (some f)).2.1.pyGetD "thumbnail" .null =
        .ok (.str ("/uploads/" ++
          ("thumb_" ++ (env.timestamp ++ "_" ++ env.secure_filename f.filename)))) ∧
      getFile (uploads env store (some f)).1
          ("thumb_" ++ (env.timestamp ++ "_" ++ env.secure_filename f.filename)) =
        some (env.thumb_bytes f.content)) := by
  have hns : ¬ (f.content.length > env.MAX_UPLOAD_SIZE) := by omega
  constructor
  · intro hfail
    unfold uploads make_thumbnail
    rcases hfail with hpa | hok
    · simp [hpa, hfn, hext, hns, Json.pyGetD, getFile, getFile_setFile_self]
    · cases hpa : env.PIL_AVAILABLE with
      | false => simp [hpa, hfn, hext, hns, Json.pyGetD, getFile, getFile_setFile_self]
      | true => simp [hpa, hok, hfn, hext, hns, Json.pyGetD, getFile, getFile_setFile_self]
  · intro hpa hok
    unfold uploads make_thumbnail
    simp [hpa, hok, hfn, hext, hns, Json.pyGetD, getFile]
    rw [getFile_setFile_self store _ f.content]
    exact getFile_setFile_self _ _ _

/-- C7 witness: without Pillow the upload succeeds with a `null`
thumbnail; with Pillow succeeding the `thumb_` URL and file appear. -/
theorem C7_thumbnail_best_effort_witness :
    ((uploads demoUploadEnvNoPil [] (some ⟨"photo.png", [9]⟩)).2.2 = 200 ∧
     (uploads demoUploadEnvNoPil [] (some ⟨"photo.png", [9]⟩)).2.1.pyGetD
        "thumbnail" .null = .ok .null) ∧
    (uploads demoUploadEnv [] (some ⟨"photo.png", [9]⟩)).2.1.pyGetD
        "thumbnail" .null =
      .ok (.str "/uploads/thumb_20260101120000_photo.png") := by
  have h1 := (C7_thumbnail_best_effort demoUploadEnvNoPil [] ⟨"photo.png", [9]⟩
    (by decide) (by decide) (by decide)).1 (Or.inl rfl)
  have h2 := (C7_thumbnail_best_effort demoUploadEnv [] ⟨"photo.png", [9]⟩
    (by decide) (by decide) (by decide)).2 rfl rfl
  exact ⟨⟨h1.1, h1.2.2⟩, h2.1⟩

/-- C10 witness: the falsy page `(ar, empty)` answers 404, and a falsy
file in a directory is dropped from the summaries. -/
theorem C10_falsy_documents_hidden_witness :
    get_page demoFS (some "ar") "empty" = .ok (errObj "not found", 404) ∧
    pageSummaries [("e", .json .null), ("a", .json (.obj [("title", .str "A")]))] =
      pageSummaries [("a", .json (.obj [("title", .str "A")]))] :=
  ⟨C10_falsy_documents_hidden.1 demoFS "ar" "empty" (.obj []) rfl rfl,
   C10_falsy_documents_hidden.2.2.1 [] [("a", .json (.obj [("title", .str "A")]))]
     "e" .null rfl⟩

/-- A contact environment with no SMTP configuration. -/
def demoContactEnv : ContactEnv :=
  { cfg := ⟨none, none, none, none, none⟩
    now_iso := "2026-01-01T12:00:00"
    now_stamp := "20260101120000"
    smtp_result := .ok () }

/-- A fully configured contact environment whose SMTP send succeeds. -/
def smtpOkEnv : ContactEnv :=
  { cfg := ⟨some "smtp.example.com", some "u", some "p", some "587",
            some "admin@example.com"⟩
    now_iso := "2026-01-01T12:00:00"
    now_stamp := "20260101120000"
    smtp_result := .ok () }

/-- `smtpOkEnv` but the SMTP session raises. -/
def smtpFailEnv : ContactEnv :=
  { smtpOkEnv with smtp_result := .error "boom" }

/-- An unconfigured environment whose `SMTP_PORT` is set to a
non-numeric string. -/
def badPortEnv : ContactEnv :=
  { demoContactEnv with cfg := ⟨none, none, none, some "abc", none⟩ }

/-- A valid contact submission body. -/
def validContactBody : Option Json :=
  some (.obj [("name", .str "Alice"), ("email", .str "a@example.com"),
              ("message", .str "hello")])

/-- C8: a contact submission in which `name`, `email` or `message` is
absent, falsy, or empty after trimming, is rejected with the
validation error naming all three required fields, and the messages
directory is unchanged. -/
theorem C8_contact_blank_rejected (env : ContactEnv) (msgs : Messages)
    (body : Option Json) (jn je jm : Json) (sn se sm : String)
    (hn : (pyOrDict body).pyGetD "name" .null = .ok jn)
    (he : (pyOrDict body).pyGetD "email" .null = .ok je)
    (hm : (pyOrDict body).pyGetD "message" .null = .ok jm)
    (hsn : pyStrip (pyOrEmpty jn) = .ok sn)
    (hse : pyStrip (pyOrEmpty je) = .ok se)
    (hsm : pyStrip (pyOrEmpty jm) = .ok sm)
    (hblank : sn = "" ∨ se = "" ∨ sm = "") :
    contact env msgs body =
      .ok (msgs, errObj "name, email, message required", 400) := by
  unfold contact
  rcases hblank with h | h | h <;>
    simp [hn, he, hm, hsn, hse, hsm, h]

/-- C8 witness: a submission whose `message` is whitespace-only is
rejected without a write. -/
theorem C8_contact_blank_rejected_witness :
    contact demoContactEnv []
        (some (.obj [("name", .str "Alice"), ("email", .str "a@example.com"),
                     ("message", .str "  ")])) =
      .ok ([], errObj "name, email, message required", 400) :=
  C8_contact_blank_rejected demoContactEnv []
    (some (.obj [("name", .str "Alice"), ("email", .str "a@example.com"),
                 ("message", .str "  ")]))
    (.str "Alice") (.str "a@example.com") (.str "  ")
    "Alice" "a@example.com" ""
    rfl rfl rfl rfl rfl rfl (Or.inr (Or.inr rfl))

/-- C9 (amended): for a valid submission — provided `SMTP_PORT`, when
set and non-empty, parses as an integer — the message file holding the
trimmed fields plus `received_at = {utcnow.isoformat()}Z` is persisted
in every outcome, and the response status is "sent" exactly when SMTP
host, user, password and destination are all configured and the send
succeeds, "saved" with the exception text as note when a configured
send fails, and "saved" with no send attempted when SMTP is not fully
configured. (A non-numeric non-empty `SMTP_PORT` instead makes `int()`
raise after the file write, for any configuration.) -/
theorem C9_contact_saved_then_sent (env : ContactEnv) (msgs : Messages)
    (body : Option Json) (jn je jm : Json) (sn se sm : String) (port : Int)
    (hn : (pyOrDict body).pyGetD "name" .null = .ok jn)
    (he : (pyOrDict body).pyGetD "email" .null = .ok je)
    (hm : (pyOrDict body).pyGetD "message" .null = .ok jm)
    (hsn : pyStrip (pyOrEmpty jn) = .ok sn)
    (hse : pyStrip (pyOrEmpty je) = .ok se)
    (hsm : pyStrip (pyOrEmpty jm) = .ok sm)
    (hnb : sn ≠ "") (heb : se ≠ "") (hmb : sm ≠ "")
    (hport : smtpPortVal env.cfg.SMTP_PORT = .ok port) :
    (smtpConfigured env.cfg = true → env.smtp_result = .ok () →
      contact env msgs body =
        .ok (setFile msgs ("message_" ++ env.now_stamp)
               (.obj [("name", .str sn), ("email", .str se), ("message", .str sm),
                      ("received_at", .str (env.now_iso ++ "Z"))]),
             .obj [("status", .str "sent")], 200)) ∧
    (∀ e, smtpConfigured env.cfg = true → env.smtp_result = .error e →
      contact env msgs body =
        .ok (setFile msgs ("message_" ++ env.now_stamp)
               (.obj [("name", .str sn), ("email", .str se), ("message", .str sm),
                      ("received_at", .str (env.now_iso ++ "Z"))]),
             .obj [("status", .str "saved"), ("note", .str e)], 200)) ∧
    (smtpConfigured env.cfg = false →
      contact env msgs body =
        .ok (setFile msgs ("message_" ++ env.now_stamp)
               (.obj [("name", .str sn), ("email", .str se), ("message", .str sm),
                      ("received_at", .str (env.now_iso ++ "Z"))]),
             .obj [("status", .str "saved")], 200)) ∧
    getFile (setFile msgs ("message_" ++ env.now_stamp)
               (.obj [("name", .str sn), ("email", .str se), ("message", .str sm),
                      ("received_at", .str (env.now_iso ++ "Z"))]))
        ("message_" ++ env.now_stamp) =
      some (.obj [("name", .str sn), ("email", .str se), ("message", .str sm),
                  ("received_at", .str (env.now_iso ++ "Z"))]) := by
  refine ⟨?_, ?_, ?_, getFile_setFile_self _ _ _⟩
  · intro hc hs
    unfold contact
    simp [hn, he, hm, hsn, hse, hsm, hnb, heb, hmb, hport, hc, hs]
  · intro e hc hs
    unfold contact
    simp [hn, he, hm, hsn, hse, hsm, hnb, heb, hmb, hport, hc, hs]
  · intro hc
    unfold contact
    simp [hn, he, hm, hsn, hse, hsm, hnb, heb, hmb, hport, hc]

/-- C9 witness: the three outcomes at concrete configurations. -/
theorem C9_contact_saved_then_sent_witness :
    contact demoContactEnv [] validContactBody =
      .ok (setFile [] "message_20260101120000"
             (.obj [("name", .str "Alice"), ("email", .str "a@example.com"),
                    ("message", .str "hello"),
                    ("received_at", .str "2026-01-01T12:00:00Z")]),
           .obj [("status", .str "saved")], 200) ∧
    contact smtpOkEnv [] validContactBody =
      .ok (setFile [] "message_20260101120000"
             (.obj [("name", .str "Alice"), ("email", .str "a@example.com"),
                    ("message", .str "hello"),
                    ("received_at", .str "2026-01-01T12:00:00Z")]),
           .obj [("status", .str "sent")], 200) ∧
    contact smtpFailEnv [] validContactBody =
      .ok (setFile [] "message_20260101120000"
             (.obj [("name", .str "Alice"), ("email", .str "a@example.com"),
                    ("message", .str "hello"),
                    ("received_at", .str "2026-01-01T12:00:00Z")]),
           .obj [("status", .str "saved"), ("note", .str "boom")], 200) := by
  refine ⟨?_, ?_, ?_⟩
  · exact (C9_contact_saved_then_sent demoContactEnv [] validContactBody
      (.str "Alice") (.str "a@example.com") (.str "hello")
      "Alice" "a@example.com" "hello" 587
      rfl rfl rfl rfl rfl rfl (by decide) (by decide) (by decide) rfl).2.2.1 rfl
  · exact (C9_contact_saved_then_sent smtpOkEnv [] validContactBody
      (.str "Alice") (.str "a@example.com") (.str "hello")
      "Alice" "a@example.com" "hello" 587
      rfl rfl rfl rfl rfl rfl (by decide) (by decide) (by decide) rfl).1 rfl rfl
  · exact (C9_contact_saved_then_sent smtpFailEnv [] validContactBody
      (.str "Alice") (.str "a@example.com") (.str "hello")
      "Alice" "a@example.com" "hello" 587
      rfl rfl rfl rfl rfl rfl (by decide) (by decide) (by decide) rfl).2.1
      "boom" rfl rfl

/-- C9 counterexample: with `SMTP_PORT="abc"` and SMTP otherwise
unconfigured, a valid submission makes `int()` raise — the handler
dies instead of answering "saved". -/
theorem C9_counterexample :
    contact badPortEnv [] validContactBody = .error () := rfl

end NahlBackend
